import Mathlib

/-!
Shallow embedding of the `kid` repository's process supervisor
(`src/watchdog.py`) for checking its natural-language specification.

The embedding is organised leaf-first, mirroring the source:
  * string helpers modelling Python's `in`, `strip`, slicing and
    `readlines`;
  * a timestamp parser modelling
    `datetime.strptime(s, "%d-%m-%Y %H:%M:%S")` on the fixed-width
    19-character slice `line[:19]`;
  * a bounded FIFO modelling `collections.deque(maxlen=n)`;
  * `LogMonitor` (`analyze_socket_error`, `check_logs`);
  * `StorageMonitor.check_storage`;
  * `BotWatchdog.monitor_loop`, modelled as a per-tick transition
    function over an explicit state, with the external world (clock,
    health-probe result, launch success, `shutil.disk_usage` result,
    log-file content) supplied as per-tick inputs.
-/

/-! ## String helpers -/

/-- Boolean test that the first list is an initial segment of the second
(used to implement the Python substring operator `in`). -/
def leadsList : List Char → List Char → Bool
  | [], _ => true
  | _ :: _, [] => false
  | a :: as, b :: bs => a == b && leadsList as bs

/-- Python's substring operator `needle in hay`, on character lists. -/
def subOf (needle : List Char) : List Char → Bool
  | [] => needle.isEmpty
  | c :: cs => leadsList needle (c :: cs) || subOf needle cs

/-- Drop leading whitespace characters. -/
def dropWhite : List Char → List Char
  | [] => []
  | c :: cs => if c.isWhitespace then dropWhite cs else c :: cs

/-- Python's `str.strip()` (whitespace from both ends; modelled over the
ASCII whitespace characters, which is all the log lines contain). -/
def pyStrip (s : String) : String :=
  String.mk ((dropWhite ((dropWhite s.toList).reverse)).reverse)

/-- Python's slice `s[:19]`, as used for the leading timestamp. -/
def take19 (s : String) : String :=
  String.mk (s.toList.take 19)

/-- Split a character buffer at newline characters, never dropping an
interior empty line. Auxiliary for `splitLines`. -/
def splitLinesAux (cur : List Char) : List Char → List (List Char)
  | [] => [cur.reverse]
  | c :: rest =>
      if c == '\n' then cur.reverse :: splitLinesAux [] rest
      else splitLinesAux (c :: cur) rest

/-- Python's `f.readlines()` on a buffer, with the line terminators
already removed: `""` gives no lines, a trailing newline does not
produce a final empty line, and interior blank lines are kept. -/
def splitLines (s : List Char) : List (List Char) :=
  let parts := splitLinesAux [] s
  if parts.getLast? = some [] then parts.dropLast else parts

/-! ## Timestamp parsing (`datetime.strptime`, format `%d-%m-%Y %H:%M:%S`) -/

/-- Numeric value of a decimal digit character. -/
def digitVal (c : Char) : Option Nat :=
  if c.isDigit then some (c.toNat - 48) else none

/-- Parse a two-digit decimal number. -/
def num2 (a b : Char) : Option Nat := do
  let x ← digitVal a
  let y ← digitVal b
  pure (10 * x + y)

/-- Parse a four-digit decimal number. -/
def num4 (a b c d : Char) : Option Nat := do
  let x ← digitVal a
  let y ← digitVal b
  let z ← digitVal c
  let w ← digitVal d
  pure (1000 * x + 100 * y + 10 * z + w)

/-- Gregorian leap-year test, as in Python's `datetime`. -/
def isLeap (y : Nat) : Bool :=
  y % 4 == 0 && (y % 100 != 0 || y % 400 == 0)

/-- Number of days in a month (`datetime` validates the day against
this bound). -/
def daysInMonth (y m : Nat) : Nat :=
  match m with
  | 1 => 31
  | 2 => if isLeap y then 29 else 28
  | 3 => 31
  | 4 => 30
  | 5 => 31
  | 6 => 30
  | 7 => 31
  | 8 => 31
  | 9 => 30
  | 10 => 31
  | 11 => 30
  | 12 => 31
  | _ => 0

/-- Days from the civil epoch 1970-01-01 for a valid Gregorian date with
year at least 1 (the standard days-from-civil computation; all
intermediate quantities are non-negative naturals). -/
def daysFromCivil (y m d : Nat) : Int :=
  let yy := if m ≤ 2 then y - 1 else y
  let era := yy / 400
  let yoe := yy % 400
  let mp := if 2 < m then m - 3 else m + 9
  let doy := (153 * mp + 2) / 5 + d - 1
  let doe := yoe * 365 + yoe / 4 - yoe / 100 + doy
  ((era * 146097 + doe : Nat) : Int) - 719468

/-- Seconds from the epoch for a calendar datetime; differences of these
values are exactly `(t2 - t1).total_seconds()` for Python datetimes. -/
def toEpoch (y mo d h mi s : Nat) : Int :=
  86400 * daysFromCivil y mo d + ((3600 * h + 60 * mi + s : Nat) : Int)

/-- Model of `datetime.strptime(s, "%d-%m-%Y %H:%M:%S")`: succeeds
exactly on a 19-character `dd-mm-yyyy HH:MM:SS` string denoting a valid
datetime, returning its epoch seconds; any other input raises in Python
and is `none` here. -/
def parseTimestamp (s : String) : Option Int :=
  match s.toList with
  | [d1, d2, p1, m1, m2, p2, y1, y2, y3, y4, p3, h1, h2, p4, n1, n2, p5, e1, e2] =>
      if p1 == '-' && p2 == '-' && p3 == ' ' && p4 == ':' && p5 == ':' then do
        let d ← num2 d1 d2
        let mo ← num2 m1 m2
        let y ← num4 y1 y2 y3 y4
        let h ← num2 h1 h2
        let mi ← num2 n1 n2
        let se ← num2 e1 e2
        if 1 ≤ y ∧ 1 ≤ mo ∧ mo ≤ 12 ∧ 1 ≤ d ∧ d ≤ daysInMonth y mo ∧
            h ≤ 23 ∧ mi ≤ 59 ∧ se ≤ 59 then
          some (toEpoch y mo d h mi se)
        else none
      else none
  | _ => none

/-! ## Bounded FIFO (`collections.deque(maxlen=n)`) -/

/-- Append to a `collections.deque(maxlen=n)`: the new element goes to
the back and, on overflow, the oldest elements are dropped from the
front. -/
def dequeAppend (n : Nat) (q : List α) (x : α) : List α :=
  let q' := q ++ [x]
  if n < q'.length then q'.drop (q'.length - n) else q'

theorem dequeAppend_eq (n : Nat) (q : List α) (x : α) :
    dequeAppend n q x = (q ++ [x]).drop (q.length + 1 - n) := by
  unfold dequeAppend
  simp only [List.length_append, List.length_cons, List.length_nil, Nat.zero_add]
  split
  · rfl
  · have h0 : q.length + 1 - n = 0 := by omega
    rw [h0, List.drop_zero]

theorem dequeAppend_length (n : Nat) (q : List α) (x : α) :
    (dequeAppend n q x).length = min (q.length + 1) n := by
  rw [dequeAppend_eq, List.length_drop]
  simp only [List.length_append, List.length_cons, List.length_nil, Nat.zero_add]
  omega

theorem mem_dequeAppend_self (n : Nat) (hn : 1 ≤ n) (q : List α) (x : α) :
    x ∈ dequeAppend n q x := by
  rw [dequeAppend_eq, List.drop_append_of_le_length (by omega)]
  exact List.mem_append_right _ (List.mem_singleton.mpr rfl)

theorem foldl_dequeAppend (n : Nat) (xs : List α) (h0 : List α)
    (hh : h0.length ≤ n) :
    xs.foldl (dequeAppend n) h0 = (h0 ++ xs).drop (h0.length + xs.length - n) := by
  induction xs generalizing h0 with
  | nil =>
      simp only [List.foldl_nil, List.append_nil, List.length_nil, Nat.add_zero]
      rw [Nat.sub_eq_zero_of_le hh, List.drop_zero]
  | cons x xs ih =>
      rw [List.foldl_cons, ih _ (by rw [dequeAppend_length]; omega), dequeAppend_eq]
      rw [← List.drop_append_of_le_length (by simp)]
      rw [List.drop_drop, List.append_assoc]
      simp only [List.singleton_append, List.length_drop, List.length_append,
        List.length_cons, List.length_nil]
      congr 1
      omega

/-! ## LogMonitor (`src/watchdog.py` lines 24-98) -/

/-- One entry of `LogMonitor.socket_errors`: the dict appended in
`analyze_socket_error` (`timestamp` is `error_line[:19]`). -/
structure SocketEntry where
  timestamp : String
  full_error : String
  count : Nat
deriving DecidableEq

/-- The mutable fields of `LogMonitor`: the read cursor
(`last_position`), the bounded error history (`deque(maxlen=100)`) and
the bounded socket-error window (`deque(maxlen=10)`), each oldest
first. -/
structure LogMonitorState where
  last_position : Nat
  error_history : List String
  socket_errors : List SocketEntry
deriving DecidableEq

/-- `LogMonitor.critical_errors` (the configured critical markers). -/
def critical_errors : List String :=
  ["RuntimeError",
   "ConnectionError",
   "ServerDisconnectedError",
   "ClientConnectorError",
   "socket.send() raised exception"]

/-- The socket-failure marker tested first in `check_logs`. -/
def socketMarker : String := "socket.send() raised exception"

/-- The inner loop of `analyze_socket_error`: `strptime` every
consecutive pair of window timestamps and collect
`(t2 - t1).total_seconds()`; the first unparseable timestamp raises in
Python, which surfaces as `none` here. -/
def timeDiffs : List SocketEntry → Option (List Int)
  | [] => some []
  | [_] => some []
  | e1 :: e2 :: rest =>
      match parseTimestamp e1.timestamp with
      | none => none
      | some t1 =>
          match parseTimestamp e2.timestamp with
          | none => none
          | some t2 =>
              match timeDiffs (e2 :: rest) with
              | none => none
              | some ds => some ((t2 - t1) :: ds)

/-- The burst decision of `analyze_socket_error` on the (post-append)
window: with at least 3 entries, signal `"frequent_socket_errors"` when
some consecutive gap is under 60 seconds; an unparseable timestamp
anywhere in the scanned pairs raises, which the enclosing `try` turns
into `None`. -/
def evalBurst (w : List SocketEntry) : Option String :=
  if 3 ≤ w.length then
    match timeDiffs w with
    | some ds =>
        if ds.any (fun d => decide (d < 60)) then some "frequent_socket_errors"
        else none
    | none => none
  else none

/-- `LogMonitor.analyze_socket_error`: append the entry (the append
precedes the raising region, so it persists even when a timestamp fails
to parse), then evaluate the burst condition on the updated window. -/
def analyze_socket_error (st : LogMonitorState) (error_line : String) :
    LogMonitorState × Option String :=
  let entry : SocketEntry :=
    { timestamp := take19 error_line
      full_error := error_line
      count := st.socket_errors.length + 1 }
  let st' := { st with socket_errors := dequeAppend 10 st.socket_errors entry }
  (st', evalBurst st'.socket_errors)

/-- The `f.seek(last_position); f.readlines(); f.tell()` step of
`check_logs`: returns the bytes from the cursor to end-of-file (empty
when the cursor is beyond end-of-file) and the new cursor, which is the
file length, or the unchanged cursor when it already lies beyond
end-of-file. There is no truncation check in the source. -/
def readNew (pos : Nat) (content : List Char) : List Char × Nat :=
  (content.drop pos, max pos content.length)

/-- The `for line in new_lines` body of `check_logs`: socket-failure
lines are recorded and the function returns the socket analysis;
`ERROR` lines are recorded and critical ones returned; both returns
abandon the remaining lines of the batch. -/
def processLines (st : LogMonitorState) : List (List Char) → LogMonitorState × Option String
  | [] => (st, none)
  | line :: rest =>
      if subOf socketMarker.toList line then
        let st' := { st with
          error_history := dequeAppend 100 st.error_history (pyStrip (String.mk line)) }
        analyze_socket_error st' (pyStrip (String.mk line))
      else if subOf "ERROR".toList line then
        let st' := { st with
          error_history := dequeAppend 100 st.error_history (pyStrip (String.mk line)) }
        if critical_errors.any (fun e => subOf e.toList line) then
          (st', some (pyStrip (String.mk line)))
        else processLines st' rest
      else processLines st rest

/-- `LogMonitor.check_logs`: no-op when the log file does not exist;
otherwise read from the stored cursor to end-of-file, advance the
cursor, and classify the new lines. Any exception is caught and
surfaced as `None`, so the function never raises. -/
def check_logs (st : LogMonitorState) (file : Option String) :
    LogMonitorState × Option String :=
  match file with
  | none => (st, none)
  | some content =>
      let r := readNew st.last_position content.toList
      processLines { st with last_position := r.2 } (splitLines r.1)

theorem analyze_last_position (st : LogMonitorState) (line : String) :
    ((analyze_socket_error st line).1).last_position = st.last_position := rfl

theorem processLines_last_position (st : LogMonitorState) (ls : List (List Char)) :
    ((processLines st ls).1).last_position = st.last_position := by
  induction ls generalizing st with
  | nil => rfl
  | cons line rest ih =>
      unfold processLines
      split
      · exact analyze_last_position _ _
      · split
        · split
          · rfl
          · exact ih _
        · exact ih _

/-! ## StorageMonitor (`src/watchdog.py` lines 100-137) -/

/-- `StorageMonitor.min_free_space` (1 GiB). -/
def min_free_space : Nat := 1024 * 1024 * 1024

/-- `StorageMonitor.check_storage`: `usage` is the result of
`shutil.disk_usage(base_path)` as `(total, used, free)`, with `none`
standing for the raising case (inaccessible path). The exception
handler logs and returns `False`, the same value as the low-space
case. -/
def check_storage (usage : Option (Nat × Nat × Nat)) : Bool :=
  match usage with
  | some u => if u.2.2 < min_free_space then false else true
  | none => false

/-! ## BotWatchdog (`src/watchdog.py` lines 139-296) -/

/-- `BotWatchdog.max_restarts`. -/
def max_restarts : Nat := 5

/-- `BotWatchdog.restart_interval` (seconds). -/
def restart_interval : Int := 60

/-- `BotWatchdog.log_check_interval` (ticks). -/
def log_check_interval : Nat := 10

/-- `BotWatchdog.storage_check_interval` (ticks). -/
def storage_check_interval : Nat := 300

/-- The supervisor state carried across iterations of `monitor_loop`:
the restart bookkeeping of `BotWatchdog.__init__` plus the two
fold-in counters local to `monitor_loop` and the owned `LogMonitor`. -/
structure WatchdogState where
  restart_count : Nat
  last_restart : Int
  log_check_counter : Nat
  storage_check_counter : Nat
  log_monitor : LogMonitorState
deriving DecidableEq

/-- The external facts one iteration of `monitor_loop` consumes:
`now` is `time.time()` (both reads within one iteration are modelled as
the same instant), `healthy` the result of `check_bot_health`,
`launch_ok` the result of `start_bot` (consulted only if a launch is
attempted), `usage` the `shutil.disk_usage` outcome, and `file` the
current content of `logs.txt` (`none` when absent). -/
structure TickInput where
  now : Int
  healthy : Bool
  launch_ok : Bool
  usage : Option (Nat × Nat × Nat)
  file : Option String
deriving DecidableEq

/-- Observable effects of one iteration of `monitor_loop`:
`storage_purge` is a `clean_directories` call from the storage phase,
`killed` a `kill_bot` call, `launch_attempted` a `start_bot` call,
`restarted` a successful counted restart, and `exited` the argument of
`sys.exit` when the iteration terminates the supervisor. -/
structure TickEffects where
  storage_purge : Bool
  killed : Bool
  launch_attempted : Bool
  restarted : Bool
  exited : Option Nat
deriving DecidableEq

/-- Lines 229-235 of `monitor_loop`: every `storage_check_interval`
ticks, reset the counter and purge whenever `check_storage` returns
`False` (low space or query error alike). -/
def storage_phase (st : WatchdogState) (usage : Option (Nat × Nat × Nat)) :
    WatchdogState × Bool :=
  let c := st.storage_check_counter + 1
  if storage_check_interval ≤ c then
    let st' := { st with storage_check_counter := 0 }
    if check_storage usage then (st', false) else (st', true)
  else ({ st with storage_check_counter := c }, false)

/-- Lines 237-275 of `monitor_loop`. Unhealthy: if more than
`restart_interval` has passed since `last_restart`, either restart
(below the ceiling; the count and timestamp advance only when
`start_bot` succeeds) or `sys.exit(1)` (at the ceiling); otherwise do
nothing this tick. Healthy: drive `check_logs` every
`log_check_interval` ticks, then apply the stability amnesty. -/
def health_phase (st : WatchdogState) (inp : TickInput) :
    WatchdogState × TickEffects :=
  if inp.healthy then
    let st1 :=
      if log_check_interval ≤ st.log_check_counter + 1 then
        { st with
          log_check_counter := 0
          log_monitor := (check_logs st.log_monitor inp.file).1 }
      else { st with log_check_counter := st.log_check_counter + 1 }
    let st2 :=
      if 3600 < inp.now - st1.last_restart then { st1 with restart_count := 0 }
      else st1
    (st2, ⟨false, false, false, false, none⟩)
  else
    if restart_interval < inp.now - st.last_restart then
      if st.restart_count < max_restarts then
        if inp.launch_ok then
          ({ st with
              restart_count := st.restart_count + 1
              last_restart := inp.now },
           ⟨false, true, true, true, none⟩)
        else (st, ⟨false, true, true, false, none⟩)
      else (st, ⟨false, false, false, false, some 1⟩)
    else (st, ⟨false, false, false, false, none⟩)

/-- One full iteration of `monitor_loop`: the storage phase followed by
the health phase. -/
def monitor_tick (st : WatchdogState) (inp : TickInput) :
    WatchdogState × TickEffects :=
  let sp := storage_phase st inp.usage
  let hp := health_phase sp.1 inp
  (hp.1, { hp.2 with storage_purge := sp.2 })

/-- Run `monitor_loop` over a list of tick inputs, stopping at the
first `sys.exit` as the real loop does; returns the final state and the
per-tick effects in order. -/
def runTicks (st : WatchdogState) : List TickInput → WatchdogState × List TickEffects
  | [] => (st, [])
  | i :: is =>
      let r := monitor_tick st i
      match r.2.exited with
      | some _ => (r.1, [r.2])
      | none =>
          let rest := runTicks r.1 is
          (rest.1, r.2 :: rest.2)

/-- The state set up by `BotWatchdog.__init__` (restart count 0,
`last_restart = 0`, fresh counters, fresh `LogMonitor`). -/
def initWatchdog : WatchdogState :=
  { restart_count := 0
    last_restart := 0
    log_check_counter := 0
    storage_check_counter := 0
    log_monitor := { last_position := 0, error_history := [], socket_errors := [] } }

theorem storage_phase_restart_fields (st : WatchdogState)
    (u : Option (Nat × Nat × Nat)) :
    ((storage_phase st u).1).restart_count = st.restart_count ∧
    ((storage_phase st u).1).last_restart = st.last_restart ∧
    ((storage_phase st u).1).log_check_counter = st.log_check_counter ∧
    ((storage_phase st u).1).log_monitor = st.log_monitor := by
  by_cases h1 : storage_check_interval ≤ st.storage_check_counter + 1
  · by_cases h2 : check_storage u <;> simp [storage_phase, h1, h2]
  · simp [storage_phase, h1]

theorem monitor_tick_eq (st : WatchdogState) (inp : TickInput) :
    monitor_tick st inp =
      ((health_phase (storage_phase st inp.usage).1 inp).1,
       { (health_phase (storage_phase st inp.usage).1 inp).2 with
          storage_purge := (storage_phase st inp.usage).2 }) := rfl

/-! ## Health-phase lemmas -/

theorem health_phase_unhealthy_debounced (st : WatchdogState) (inp : TickInput)
    (hh : inp.healthy = false)
    (hd : inp.now - st.last_restart ≤ restart_interval) :
    health_phase st inp = (st, ⟨false, false, false, false, none⟩) := by
  unfold health_phase
  rw [hh]
  simp only [Bool.false_eq_true, if_false]
  rw [if_neg (by omega)]

theorem health_phase_at_ceiling (st : WatchdogState) (inp : TickInput)
    (hh : inp.healthy = false)
    (hc : ¬ st.restart_count < max_restarts)
    (hd : restart_interval < inp.now - st.last_restart) :
    health_phase st inp = (st, ⟨false, false, false, false, some 1⟩) := by
  unfold health_phase
  rw [hh]
  simp only [Bool.false_eq_true, if_false]
  rw [if_pos hd, if_neg hc]

theorem health_phase_launch_failed (st : WatchdogState) (inp : TickInput)
    (hh : inp.healthy = false)
    (hl : inp.launch_ok = false)
    (hc : st.restart_count < max_restarts)
    (hd : restart_interval < inp.now - st.last_restart) :
    health_phase st inp = (st, ⟨false, true, true, false, none⟩) := by
  unfold health_phase
  rw [hh, hl]
  simp only [Bool.false_eq_true, if_false]
  rw [if_pos hd, if_pos hc]

theorem health_phase_healthy_amnesty (st : WatchdogState) (inp : TickInput)
    (hh : inp.healthy = true)
    (ht : 3600 < inp.now - st.last_restart) :
    ((health_phase st inp).1).restart_count = 0 := by
  by_cases hl : log_check_interval ≤ st.log_check_counter + 1 <;>
    simp [health_phase, hh, hl, ht]

theorem health_phase_healthy_effects (st : WatchdogState) (inp : TickInput)
    (hh : inp.healthy = true) :
    (health_phase st inp).2 = ⟨false, false, false, false, none⟩ := by
  unfold health_phase
  rw [hh]
  rfl

theorem storage_phase_error_purges (st : WatchdogState)
    (hc : storage_check_interval ≤ st.storage_check_counter + 1) :
    storage_phase st none = ({ st with storage_check_counter := 0 }, true) := by
  simp [storage_phase, hc, check_storage]

/-! ## Claim C2 -/

/-- C2: on every tick where the health probe reports unhealthy, if
`now - last_restart` is within `restart_interval` (60 s) the supervisor
neither kills nor restarts the managed process, does not exit, and
leaves the restart bookkeeping untouched, regardless of the log
state. -/
theorem restart_debounce_holds (st : WatchdogState) (inp : TickInput)
    (hh : inp.healthy = false)
    (hd : inp.now - st.last_restart ≤ restart_interval) :
    (monitor_tick st inp).2.killed = false ∧
    (monitor_tick st inp).2.launch_attempted = false ∧
    (monitor_tick st inp).2.restarted = false ∧
    (monitor_tick st inp).2.exited = none ∧
    ((monitor_tick st inp).1).restart_count = st.restart_count ∧
    ((monitor_tick st inp).1).last_restart = st.last_restart := by
  obtain ⟨h1, h2, h3, h4⟩ := storage_phase_restart_fields st inp.usage
  rw [monitor_tick_eq]
  rw [health_phase_unhealthy_debounced _ _ hh (by rw [h2]; omega)]
  exact ⟨rfl, rfl, rfl, rfl, h1, h2⟩

/-- Witness for C2 at a concrete state: 30 s after a restart, an
unhealthy tick does nothing. -/
theorem restart_debounce_holds_witness :
    ((⟨130, false, true, some (0, 0, 2000000000), none⟩ : TickInput).healthy = false) ∧
    ((⟨130, false, true, some (0, 0, 2000000000), none⟩ : TickInput).now -
        (⟨2, 100, 0, 0, ⟨0, [], []⟩⟩ : WatchdogState).last_restart ≤ restart_interval) ∧
    ((monitor_tick ⟨2, 100, 0, 0, ⟨0, [], []⟩⟩
        ⟨130, false, true, some (0, 0, 2000000000), none⟩).2.killed = false ∧
     (monitor_tick ⟨2, 100, 0, 0, ⟨0, [], []⟩⟩
        ⟨130, false, true, some (0, 0, 2000000000), none⟩).2.launch_attempted = false ∧
     (monitor_tick ⟨2, 100, 0, 0, ⟨0, [], []⟩⟩
        ⟨130, false, true, some (0, 0, 2000000000), none⟩).2.restarted = false ∧
     (monitor_tick ⟨2, 100, 0, 0, ⟨0, [], []⟩⟩
        ⟨130, false, true, some (0, 0, 2000000000), none⟩).2.exited = none ∧
     ((monitor_tick ⟨2, 100, 0, 0, ⟨0, [], []⟩⟩
        ⟨130, false, true, some (0, 0, 2000000000), none⟩).1).restart_count =
          (⟨2, 100, 0, 0, ⟨0, [], []⟩⟩ : WatchdogState).restart_count ∧
     ((monitor_tick ⟨2, 100, 0, 0, ⟨0, [], []⟩⟩
        ⟨130, false, true, some (0, 0, 2000000000), none⟩).1).last_restart =
          (⟨2, 100, 0, 0, ⟨0, [], []⟩⟩ : WatchdogState).last_restart) :=
  ⟨rfl, by decide,
   restart_debounce_holds ⟨2, 100, 0, 0, ⟨0, [], []⟩⟩
     ⟨130, false, true, some (0, 0, 2000000000), none⟩ rfl (by decide)⟩

/-! ## Claim C1 -/

/-- Six-tick run: five successful restarts spaced just over the
debounce interval, then an unhealthy tick 30 s after the fifth
restart. -/
def ceilingRun : WatchdogState × List TickEffects :=
  runTicks initWatchdog
    [⟨61, false, true, some (0, 0, 2000000000), none⟩,
     ⟨122, false, true, some (0, 0, 2000000000), none⟩,
     ⟨183, false, true, some (0, 0, 2000000000), none⟩,
     ⟨244, false, true, some (0, 0, 2000000000), none⟩,
     ⟨305, false, true, some (0, 0, 2000000000), none⟩,
     ⟨335, false, true, some (0, 0, 2000000000), none⟩]

/-- C1 counterexample: after exactly `max_restarts` (5) successful
restarts with no stability reset, the next unhealthy tick (30 s after
the fifth restart, hence inside the debounce window) neither exits with
status 1 nor restarts: the claimed immediate `FatalStop` on the next
unhealthy tick does not happen. -/
theorem restart_ceiling_cx :
    ceilingRun.1.restart_count = 5 ∧
    ceilingRun.2.map (fun e => e.restarted) =
      [true, true, true, true, true, false] ∧
    ceilingRun.2.map (fun e => e.exited) =
      [none, none, none, none, none, none] := by decide

/-- C1 (amended): with `restart_count` at `max_restarts`, an unhealthy
tick never restarts or kills; it exits with status 1 exactly when it
falls more than `restart_interval` after the last restart, and
otherwise does nothing, leaving the count at the ceiling. -/
theorem restart_ceiling_debounced (st : WatchdogState) (inp : TickInput)
    (hc : st.restart_count = max_restarts)
    (hh : inp.healthy = false) :
    (monitor_tick st inp).2.restarted = false ∧
    (monitor_tick st inp).2.killed = false ∧
    (monitor_tick st inp).2.launch_attempted = false ∧
    ((monitor_tick st inp).1).restart_count = max_restarts ∧
    ((monitor_tick st inp).2.exited = some 1 ↔
      restart_interval < inp.now - st.last_restart) := by
  obtain ⟨h1, h2, h3, h4⟩ := storage_phase_restart_fields st inp.usage
  rw [monitor_tick_eq]
  by_cases hd : restart_interval < inp.now - st.last_restart
  · rw [health_phase_at_ceiling _ _ hh (by rw [h1, hc]; omega) (by rw [h2]; exact hd)]
    refine ⟨rfl, rfl, rfl, by rw [h1, hc], ?_⟩
    simp [hd]
  · rw [health_phase_unhealthy_debounced _ _ hh (by rw [h2]; omega)]
    refine ⟨rfl, rfl, rfl, by rw [h1, hc], ?_⟩
    simp [hd]

/-- Witness for C1 (amended): at the ceiling, an unhealthy tick 100 s
after the last restart exits with status 1. -/
theorem restart_ceiling_debounced_witness :
    ((⟨5, 100, 0, 0, ⟨0, [], []⟩⟩ : WatchdogState).restart_count = max_restarts) ∧
    ((⟨200, false, true, some (0, 0, 2000000000), none⟩ : TickInput).healthy = false) ∧
    ((monitor_tick ⟨5, 100, 0, 0, ⟨0, [], []⟩⟩
        ⟨200, false, true, some (0, 0, 2000000000), none⟩).2.restarted = false ∧
     (monitor_tick ⟨5, 100, 0, 0, ⟨0, [], []⟩⟩
        ⟨200, false, true, some (0, 0, 2000000000), none⟩).2.killed = false ∧
     (monitor_tick ⟨5, 100, 0, 0, ⟨0, [], []⟩⟩
        ⟨200, false, true, some (0, 0, 2000000000), none⟩).2.launch_attempted = false ∧
     ((monitor_tick ⟨5, 100, 0, 0, ⟨0, [], []⟩⟩
        ⟨200, false, true, some (0, 0, 2000000000), none⟩).1).restart_count = max_restarts ∧
     ((monitor_tick ⟨5, 100, 0, 0, ⟨0, [], []⟩⟩
        ⟨200, false, true, some (0, 0, 2000000000), none⟩).2.exited = some 1 ↔
        restart_interval < (⟨200, false, true, some (0, 0, 2000000000), none⟩ : TickInput).now -
          (⟨5, 100, 0, 0, ⟨0, [], []⟩⟩ : WatchdogState).last_restart)) :=
  ⟨rfl, rfl,
   restart_ceiling_debounced ⟨5, 100, 0, 0, ⟨0, [], []⟩⟩
     ⟨200, false, true, some (0, 0, 2000000000), none⟩ rfl rfl⟩

/-! ## Claim C5 -/

/-- Eight-tick run from the initial state in which the probe is always
unhealthy and every launch attempt fails. -/
def launchFailRun : WatchdogState × List TickEffects :=
  runTicks initWatchdog
    [⟨100, false, false, some (0, 0, 2000000000), none⟩,
     ⟨200, false, false, some (0, 0, 2000000000), none⟩,
     ⟨300, false, false, some (0, 0, 2000000000), none⟩,
     ⟨400, false, false, some (0, 0, 2000000000), none⟩,
     ⟨500, false, false, some (0, 0, 2000000000), none⟩,
     ⟨600, false, false, some (0, 0, 2000000000), none⟩,
     ⟨700, false, false, some (0, 0, 2000000000), none⟩,
     ⟨800, false, false, some (0, 0, 2000000000), none⟩]

/-- C5 counterexample: eight consecutive failed launch attempts (more
than `max_restarts = 5`) leave `restart_count` at 0 and never reach
`sys.exit`: launch failures are not counted against the ceiling and the
supervisor retries forever instead of stopping after at most
`max_restarts` attempts. -/
theorem launch_failure_cx :
    launchFailRun.2.map (fun e => e.launch_attempted) =
      [true, true, true, true, true, true, true, true] ∧
    launchFailRun.2.map (fun e => e.exited) =
      [none, none, none, none, none, none, none, none] ∧
    launchFailRun.1.restart_count = 0 ∧
    launchFailRun.1.last_restart = 0 := by decide

/-- C5 (amended): a failed launch attempt increments neither
`restart_count` nor `last_restart` and is not recorded as a restart;
below the ceiling such a tick never exits, so consecutive launch
failures are retried indefinitely (on every tick once past the debounce
from the last successful restart) and never lead to `FatalStop` by
themselves. -/
theorem launch_failure_uncounted (st : WatchdogState) (inp : TickInput)
    (hh : inp.healthy = false)
    (hl : inp.launch_ok = false) :
    ((monitor_tick st inp).1).restart_count = st.restart_count ∧
    ((monitor_tick st inp).1).last_restart = st.last_restart ∧
    (monitor_tick st inp).2.restarted = false ∧
    (st.restart_count < max_restarts → (monitor_tick st inp).2.exited = none) := by
  obtain ⟨h1, h2, h3, h4⟩ := storage_phase_restart_fields st inp.usage
  rw [monitor_tick_eq]
  by_cases hd : restart_interval < inp.now - st.last_restart
  · by_cases hc : st.restart_count < max_restarts
    · rw [health_phase_launch_failed _ _ hh hl (by rw [h1]; exact hc)
        (by rw [h2]; exact hd)]
      exact ⟨h1, h2, rfl, fun _ => rfl⟩
    · rw [health_phase_at_ceiling _ _ hh (by rw [h1]; exact hc)
        (by rw [h2]; exact hd)]
      exact ⟨h1, h2, rfl, fun hcc => absurd hcc hc⟩
  · rw [health_phase_unhealthy_debounced _ _ hh (by rw [h2]; omega)]
    exact ⟨h1, h2, rfl, fun _ => rfl⟩

/-- Witness for C5 (amended) at a concrete state: an unhealthy tick
with a failing launch leaves the restart bookkeeping untouched and does
not exit. -/
theorem launch_failure_uncounted_witness :
    ((⟨100, false, false, some (0, 0, 2000000000), none⟩ : TickInput).healthy = false) ∧
    ((⟨100, false, false, some (0, 0, 2000000000), none⟩ : TickInput).launch_ok = false) ∧
    (((monitor_tick ⟨0, 0, 0, 0, ⟨0, [], []⟩⟩
        ⟨100, false, false, some (0, 0, 2000000000), none⟩).1).restart_count =
          (⟨0, 0, 0, 0, ⟨0, [], []⟩⟩ : WatchdogState).restart_count ∧
     ((monitor_tick ⟨0, 0, 0, 0, ⟨0, [], []⟩⟩
        ⟨100, false, false, some (0, 0, 2000000000), none⟩).1).last_restart =
          (⟨0, 0, 0, 0, ⟨0, [], []⟩⟩ : WatchdogState).last_restart ∧
     (monitor_tick ⟨0, 0, 0, 0, ⟨0, [], []⟩⟩
        ⟨100, false, false, some (0, 0, 2000000000), none⟩).2.restarted = false ∧
     ((⟨0, 0, 0, 0, ⟨0, [], []⟩⟩ : WatchdogState).restart_count < max_restarts →
      (monitor_tick ⟨0, 0, 0, 0, ⟨0, [], []⟩⟩
        ⟨100, false, false, some (0, 0, 2000000000), none⟩).2.exited = none)) :=
  ⟨rfl, rfl,
   launch_failure_uncounted ⟨0, 0, 0, 0, ⟨0, [], []⟩⟩
     ⟨100, false, false, some (0, 0, 2000000000), none⟩ rfl rfl⟩

/-! ## Claim C7 -/

/-- C7 counterexample: on a storage-check tick whose free-space query
fails (`usage = none`), the supervisor purges the scratch directories,
although the claim says a query error alone never triggers a purge. -/
theorem storage_error_purge_cx :
    (monitor_tick ⟨0, 0, 0, 299, ⟨0, [], []⟩⟩
      ⟨10, true, true, none, none⟩).2.storage_purge = true ∧
    (monitor_tick ⟨0, 0, 0, 299, ⟨0, [], []⟩⟩
      ⟨10, true, true, none, none⟩).2.exited = none := by decide

/-- C7 (amended): a failed free-space query makes `check_storage`
return `False`, indistinguishable from low space, so on a storage-check
tick the supervisor purges the scratch directories; the failure is
still non-fatal — on a healthy tick the loop continues without
exiting. -/
theorem storage_error_triggers_purge (st : WatchdogState) (inp : TickInput)
    (hu : inp.usage = none)
    (hc : storage_check_interval ≤ st.storage_check_counter + 1) :
    check_storage none = false ∧
    (monitor_tick st inp).2.storage_purge = true ∧
    (inp.healthy = true → (monitor_tick st inp).2.exited = none) := by
  rw [monitor_tick_eq, hu, storage_phase_error_purges st hc]
  refine ⟨rfl, rfl, fun hh => ?_⟩
  rw [health_phase_healthy_effects _ _ hh]

/-- Witness for C7 (amended) at a concrete state. -/
theorem storage_error_triggers_purge_witness :
    ((⟨50, true, true, none, none⟩ : TickInput).usage = none) ∧
    (storage_check_interval ≤
      (⟨1, 0, 0, 400, ⟨0, [], []⟩⟩ : WatchdogState).storage_check_counter + 1) ∧
    (check_storage none = false ∧
     (monitor_tick ⟨1, 0, 0, 400, ⟨0, [], []⟩⟩
        ⟨50, true, true, none, none⟩).2.storage_purge = true ∧
     ((⟨50, true, true, none, none⟩ : TickInput).healthy = true →
      (monitor_tick ⟨1, 0, 0, 400, ⟨0, [], []⟩⟩
        ⟨50, true, true, none, none⟩).2.exited = none)) :=
  ⟨rfl, by decide,
   storage_error_triggers_purge ⟨1, 0, 0, 400, ⟨0, [], []⟩⟩
     ⟨50, true, true, none, none⟩ rfl (by decide)⟩

/-! ## Claim C8 -/

/-- C8: stability amnesty — on a tick where the probe reports healthy
and more than 3600 s have elapsed since `last_restart`, the tick resets
`restart_count` to 0. -/
theorem stability_amnesty_resets (st : WatchdogState) (inp : TickInput)
    (hh : inp.healthy = true)
    (ht : 3600 < inp.now - st.last_restart) :
    ((monitor_tick st inp).1).restart_count = 0 := by
  obtain ⟨h1, h2, h3, h4⟩ := storage_phase_restart_fields st inp.usage
  rw [monitor_tick_eq]
  exact health_phase_healthy_amnesty _ _ hh (by rw [h2]; exact ht)

/-- Witness for C8 at a concrete state: healthy tick 4000 s after the
last restart resets a count of 3 to 0. -/
theorem stability_amnesty_resets_witness :
    ((⟨4000, true, true, some (0, 0, 2000000000), none⟩ : TickInput).healthy = true) ∧
    ((3600 : Int) < (⟨4000, true, true, some (0, 0, 2000000000), none⟩ : TickInput).now -
      (⟨3, 0, 0, 0, ⟨0, [], []⟩⟩ : WatchdogState).last_restart) ∧
    ((monitor_tick ⟨3, 0, 0, 0, ⟨0, [], []⟩⟩
        ⟨4000, true, true, some (0, 0, 2000000000), none⟩).1).restart_count = 0 :=
  ⟨rfl, by decide,
   stability_amnesty_resets ⟨3, 0, 0, 0, ⟨0, [], []⟩⟩
     ⟨4000, true, true, some (0, 0, 2000000000), none⟩ rfl (by decide)⟩

/-! ## Claim C3 -/

/-- C3 counterexample: with the cursor at offset 10 and a 7-byte file
containing an `ERROR` line from offset 0, the next poll leaves the
cursor at 10 (not 0), reads nothing (the `ERROR` line at the start of
the file is never classified into the history), and returns `None`:
there is no truncation reset in `check_logs`. -/
theorem truncation_reset_cx :
    check_logs ⟨10, [], []⟩ (some "ERROR x") = (⟨10, [], []⟩, none) ∧
    (check_logs ⟨10, [], []⟩ (some "ERROR x")).1.last_position ≠ 0 ∧
    (check_logs ⟨10, [], []⟩ (some "ERROR x")).1.error_history = [] := by decide

/-- C3 (amended): when the log file's size is smaller than the stored
cursor offset, the next poll does not reset the cursor: it reads
nothing, leaves the whole `LogMonitor` state unchanged (the cursor
stays at the stale offset) and completes without an error, returning
`None`. -/
theorem truncation_no_reset (st : LogMonitorState) (content : String)
    (hs : content.length < st.last_position) :
    check_logs st (some content) = (st, none) := by
  have h1 : readNew st.last_position content.toList = ([], st.last_position) := by
    unfold readNew
    rw [List.drop_eq_nil_iff.mpr
        (show content.toList.length ≤ st.last_position from Nat.le_of_lt hs),
      Nat.max_eq_left
        (show content.toList.length ≤ st.last_position from Nat.le_of_lt hs)]
  show processLines { st with last_position := (readNew st.last_position content.toList).2 }
    (splitLines (readNew st.last_position content.toList).1) = (st, none)
  rw [h1]
  rfl

/-- Witness for C3 (amended): 3-byte file against a cursor at 12. -/
theorem truncation_no_reset_witness :
    (("abc" : String).length < (⟨12, ["old"], []⟩ : LogMonitorState).last_position) ∧
    check_logs ⟨12, ["old"], []⟩ (some "abc") = (⟨12, ["old"], []⟩, none) :=
  ⟨by decide, truncation_no_reset ⟨12, ["old"], []⟩ "abc" (by decide)⟩

/-! ## Claim C4 -/

/-- Simulate a sequence of polls against an append-only file: before
each poll one chunk is appended, then the `seek`/`readlines`/`tell`
step of `check_logs` runs; collect the bytes each poll reads. -/
def collectReads : Nat → List Char → List (List Char) → List (List Char)
  | _, _, [] => []
  | pos, content, ch :: rest =>
      let content' := content ++ ch
      let r := readNew pos content'
      r.1 :: collectReads r.2 content' rest

theorem collectReads_exact (chunks : List (List Char)) :
    ∀ content : List Char, collectReads content.length content chunks = chunks := by
  induction chunks with
  | nil => intro content; rfl
  | cons ch rest ih =>
      intro content
      show (readNew content.length (content ++ ch)).1 ::
        collectReads (readNew content.length (content ++ ch)).2 (content ++ ch) rest
          = ch :: rest
      unfold readNew
      rw [List.drop_left]
      have hm : max content.length (content ++ ch).length = (content ++ ch).length := by
        rw [List.length_append]
        omega
      rw [hm, ih]

/-- C4 counterexample input: a batch whose first line is the
socket-failure marker and whose second line is a critical `ERROR`
line. -/
def skippedBatch : String :=
  "socket.send() raised exception\nERROR ConnectionError boom\n"

/-- C4 counterexample: polling this two-line batch classifies only the
first line (`check_logs` returns from inside the loop after the socket
line, having already advanced the cursor to end-of-file), and a second
poll reads nothing — the appended critical `ERROR` line is never
classified, contradicting the claim that no appended line is ever
skipped by the classifier. -/
theorem classifier_skips_cx :
    (check_logs ⟨0, [], []⟩ (some skippedBatch)).1.error_history =
      ["socket.send() raised exception"] ∧
    "ERROR ConnectionError boom" ∉
      (check_logs ⟨0, [], []⟩ (some skippedBatch)).1.error_history ∧
    check_logs (check_logs ⟨0, [], []⟩ (some skippedBatch)).1 (some skippedBatch) =
      ((check_logs ⟨0, [], []⟩ (some skippedBatch)).1, none) := by decide

/-- C4 (amended): at the byte level the tailer is exact — starting from
offset 0 on an empty file, each poll of an append-only file reads
exactly the bytes appended since the previous poll, in order, never
re-reading and never skipping a byte (and `check_logs` always advances
the cursor to end-of-file); lines are nevertheless not all classified,
because a poll returns early at the first socket-failure or critical
line of a batch (see the counterexample). -/
theorem poll_batches_exact :
    (∀ chunks : List (List Char), collectReads 0 [] chunks = chunks) ∧
    (∀ (st : LogMonitorState) (content : String),
      ((check_logs st (some content)).1).last_position =
        max st.last_position content.length) := by
  constructor
  · intro chunks
    exact collectReads_exact chunks []
  · intro st content
    show (processLines { st with
        last_position := (readNew st.last_position content.toList).2 }
      (splitLines (readNew st.last_position content.toList).1)).1.last_position =
        max st.last_position content.length
    rw [processLines_last_position]
    rfl

/-! ## Claim C9 -/

/-- C9: bounded history — for any starting history within capacity,
inserting more than 100 records leaves exactly the 100 most recently
inserted ones (the older prefix evicted from the front), and every
stored record is one of the inserted records, unchanged. -/
theorem error_history_last_100 (h0 xs : List String)
    (hh : h0.length ≤ 100) (hmore : 100 < xs.length) :
    xs.foldl (dequeAppend 100) h0 = xs.drop (xs.length - 100) ∧
    (xs.foldl (dequeAppend 100) h0).length = 100 ∧
    ∀ r ∈ xs.foldl (dequeAppend 100) h0, r ∈ xs := by
  have hfold := foldl_dequeAppend 100 xs h0 hh
  have heq : xs.foldl (dequeAppend 100) h0 = xs.drop (xs.length - 100) := by
    rw [hfold,
      show h0.length + xs.length - 100 = h0.length + (xs.length - 100) by omega,
      ← List.drop_drop, List.drop_left]
  refine ⟨heq, ?_, ?_⟩
  · rw [heq, List.length_drop]
    omega
  · intro r hr
    rw [heq] at hr
    exact List.drop_subset _ _ hr

/-- Witness for C9: 101 distinct records inserted into an empty
history leave exactly the last 100. -/
theorem error_history_last_100_witness :
    (([] : List String).length ≤ 100) ∧
    (100 < ((List.range 101).map toString).length) ∧
    (((List.range 101).map toString).foldl (dequeAppend 100) [] =
        ((List.range 101).map toString).drop
          (((List.range 101).map toString).length - 100) ∧
      (((List.range 101).map toString).foldl (dequeAppend 100) []).length = 100 ∧
      ∀ r ∈ ((List.range 101).map toString).foldl (dequeAppend 100) [],
        r ∈ (List.range 101).map toString) :=
  ⟨by simp, by simp,
   error_history_last_100 [] ((List.range 101).map toString) (by simp) (by simp)⟩

/-! ## Claim C6 -/

theorem evalBurst_characterization (w : List SocketEntry) (ds : List Int)
    (h3 : 3 ≤ w.length) (hds : timeDiffs w = some ds) :
    (evalBurst w = some "frequent_socket_errors" ↔ ∃ d ∈ ds, d < 60) := by
  unfold evalBurst
  rw [if_pos h3, hds]
  show (if (ds.any fun d => decide (d < 60)) = true then
      some "frequent_socket_errors" else none) = some "frequent_socket_errors" ↔
    ∃ d ∈ ds, d < 60
  by_cases hany : ds.any (fun d => decide (d < 60)) = true
  · rw [if_pos hany]
    constructor
    · intro _
      simpa using hany
    · intro _
      rfl
  · rw [if_neg hany]
    constructor
    · intro h
      cases h
    · intro hex
      exact absurd (by simpa using hex) hany

/-- C6: burst characterization — when the post-append socket window
holds at least 3 entries and every windowed timestamp parses (so the
consecutive inter-arrival gaps are `ds`), `analyze_socket_error`
returns the burst signal `"frequent_socket_errors"` exactly when some
consecutive gap is under 60 seconds. -/
theorem burst_gap_characterization (st : LogMonitorState) (line : String)
    (ds : List Int)
    (h3 : 3 ≤ ((analyze_socket_error st line).1).socket_errors.length)
    (hds : timeDiffs ((analyze_socket_error st line).1).socket_errors = some ds) :
    ((analyze_socket_error st line).2 = some "frequent_socket_errors" ↔
      ∃ d ∈ ds, d < 60) :=
  evalBurst_characterization _ ds h3 hds

/-- Witness for C6: with windowed timestamps T, T+10s, T+40s the gaps
are [10, 30] and the signal fires; with T, T+90s, T+200s (checked
directly on the evaluator) it does not. -/
theorem burst_gap_characterization_witness :
    (3 ≤ ((analyze_socket_error
        ⟨0, [], [⟨"01-01-2024 00:00:00", "a", 1⟩, ⟨"01-01-2024 00:00:10", "b", 2⟩]⟩
        "01-01-2024 00:00:40 socket.send() raised exception").1).socket_errors.length) ∧
    (timeDiffs ((analyze_socket_error
        ⟨0, [], [⟨"01-01-2024 00:00:00", "a", 1⟩, ⟨"01-01-2024 00:00:10", "b", 2⟩]⟩
        "01-01-2024 00:00:40 socket.send() raised exception").1).socket_errors =
      some [10, 30]) ∧
    ((analyze_socket_error
        ⟨0, [], [⟨"01-01-2024 00:00:00", "a", 1⟩, ⟨"01-01-2024 00:00:10", "b", 2⟩]⟩
        "01-01-2024 00:00:40 socket.send() raised exception").2 =
      some "frequent_socket_errors") ∧
    (evalBurst [⟨"01-01-2024 00:00:00", "a", 1⟩, ⟨"01-01-2024 00:01:30", "b", 2⟩,
        ⟨"01-01-2024 00:03:20", "c", 3⟩] = none) :=
  ⟨by decide, by decide,
   (burst_gap_characterization
      ⟨0, [], [⟨"01-01-2024 00:00:00", "a", 1⟩, ⟨"01-01-2024 00:00:10", "b", 2⟩]⟩
      "01-01-2024 00:00:40 socket.send() raised exception" [10, 30]
      (by decide) (by decide)).mpr ⟨10, by decide, by decide⟩,
   by decide⟩

/-! ## Claim C10 -/

theorem timeDiffs_none_of_bad (w : List SocketEntry)
    (hw : 2 ≤ w.length) (hbad : ∃ e ∈ w, parseTimestamp e.timestamp = none) :
    timeDiffs w = none := by
  induction w with
  | nil => simp at hw
  | cons e1 rest ih =>
      match rest with
      | [] => simp at hw
      | e2 :: rest' =>
          obtain ⟨e, he, hpe⟩ := hbad
          cases hp1 : parseTimestamp e1.timestamp with
          | none =>
              unfold timeDiffs
              rw [hp1]
          | some t1 =>
              cases hp2 : parseTimestamp e2.timestamp with
              | none =>
                  unfold timeDiffs
                  rw [hp1, hp2]
              | some t2 =>
                  rcases List.mem_cons.mp he with h1 | hmem
                  · rw [h1] at hpe
                    rw [hpe] at hp1
                    cases hp1
                  · rcases List.mem_cons.mp hmem with h2 | hmem'
                    · rw [h2] at hpe
                      rw [hpe] at hp2
                      cases hp2
                    · have hne : rest' ≠ [] := by
                        intro hcon
                        rw [hcon] at hmem'
                        cases hmem'
                      have hlen : 2 ≤ (e2 :: rest').length := by
                        cases rest' with
                        | nil => exact absurd rfl hne
                        | cons a b => simp
                      have hrec : timeDiffs (e2 :: rest') = none :=
                        ih hlen ⟨e, List.mem_cons_of_mem _ hmem', hpe⟩
                      unfold timeDiffs
                      rw [hp1, hp2, hrec]

theorem evalBurst_none_of_bad (w : List SocketEntry)
    (hbad : ∃ e ∈ w, parseTimestamp e.timestamp = none) :
    evalBurst w = none := by
  unfold evalBurst
  by_cases h3 : 3 ≤ w.length
  · rw [if_pos h3, timeDiffs_none_of_bad w (by omega) hbad]
  · rw [if_neg h3]

/-- C10 (amended): a classified line whose leading 19 characters do
not parse as a `dd-mm-yyyy HH:MM:SS` timestamp produces no burst
signal and no error, but its entry is still recorded in the socket
window; and any window containing an entry with an unparseable
timestamp evaluates to no signal — so correctly timestamped lines in
the same window are affected (their burst evaluation is suppressed)
until the bad entry is evicted. -/
theorem bad_timestamp_poisons_window (st : LogMonitorState) (line : String)
    (hbad : parseTimestamp (take19 line) = none) :
    (analyze_socket_error st line).2 = none ∧
    ((analyze_socket_error st line).1).socket_errors =
      dequeAppend 10 st.socket_errors
        ⟨take19 line, line, st.socket_errors.length + 1⟩ ∧
    (∀ w : List SocketEntry, (∃ e ∈ w, parseTimestamp e.timestamp = none) →
      evalBurst w = none) := by
  refine ⟨?_, rfl, fun w hw => evalBurst_none_of_bad w hw⟩
  have hmem : (⟨take19 line, line, st.socket_errors.length + 1⟩ : SocketEntry) ∈
      ((analyze_socket_error st line).1).socket_errors :=
    mem_dequeAppend_self 10 (by omega) _ _
  exact evalBurst_none_of_bad _ ⟨_, hmem, hbad⟩

/-- Witness for C10 (amended) at a concrete unparseable line. -/
theorem bad_timestamp_poisons_window_witness :
    (parseTimestamp (take19 "garbled line socket.send() raised exception") = none) ∧
    ((analyze_socket_error ⟨0, [], []⟩
        "garbled line socket.send() raised exception").2 = none ∧
     ((analyze_socket_error ⟨0, [], []⟩
        "garbled line socket.send() raised exception").1).socket_errors =
        dequeAppend 10 []
          ⟨take19 "garbled line socket.send() raised exception",
            "garbled line socket.send() raised exception", 1⟩ ∧
     (∀ w : List SocketEntry, (∃ e ∈ w, parseTimestamp e.timestamp = none) →
        evalBurst w = none)) :=
  ⟨by decide,
   bad_timestamp_poisons_window ⟨0, [], []⟩
     "garbled line socket.send() raised exception" (by decide)⟩

/-- State after one `analyze_socket_error` call (used to chain calls in
the C10 counterexample). -/
def analyzeStep (st : LogMonitorState) (l : String) : LogMonitorState :=
  (analyze_socket_error st l).1

/-- C10 counterexample: three well-timestamped socket errors at T,
T+10s, T+40s alone produce the burst signal, but the same three lines
preceded by one line with an unparseable timestamp produce no signal on
the final call — the bad entry in the window suppresses burst
evaluation for the correctly timestamped lines, contradicting the claim
that other lines in the window are unaffected. -/
theorem bad_timestamp_cx :
    (analyze_socket_error (analyzeStep (analyzeStep ⟨0, [], []⟩
        "01-01-2024 00:00:00 socket.send() raised exception")
        "01-01-2024 00:00:10 socket.send() raised exception")
      "01-01-2024 00:00:40 socket.send() raised exception").2 =
        some "frequent_socket_errors" ∧
    (analyze_socket_error (analyzeStep (analyzeStep (analyzeStep ⟨0, [], []⟩
        "no timestamp socket.send() raised exception")
        "01-01-2024 00:00:00 socket.send() raised exception")
        "01-01-2024 00:00:10 socket.send() raised exception")
      "01-01-2024 00:00:40 socket.send() raised exception").2 = none := by decide
